/-
  Verification development for the nlq-to-sql-mcp-template repository.

  Shallow embedding of the core modules (query_executor.py, semantic_layer.py,
  llm_client.py, server.py) into Lean 4, together with theorems settling the
  specification claims about them.

  Modelling conventions:
  * Python strings are Lean `String`s; the Python string operations used by the
    source (strip, upper, startswith, endswith, slicing, `in`, split, replace)
    are re-implemented over `List Char` below so that every definition is
    executable and kernel-reducible.  Python's whitespace set is modelled by
    `Char.isWhitespace` (space, tab, CR, LF), which covers every input the
    claims exercise; `.upper()` is modelled on ASCII letters, as in the SQL
    keywords the source compares against.
  * External effects are oracles passed in as function arguments: the DuckDB
    connection is a function from query text to either an error message
    (a raised exception) or the fetched rows; the LLM transport is a function
    from prompt text to response text plus token counts; wall-clock elapsed
    time is supplied by the execution oracle.  Call-by-call nondeterminism of
    the environment (the LLM and the database may answer differently on each
    loop iteration) is modelled by giving each oracle the iteration index.
  * Fallible Python code (raise ValueError / duckdb exceptions) is modelled
    with `Except String`.
  * Side effects that the claims observe (rows inserted by log_attempt, the
    number of generate_sql calls) are returned explicitly in a trace structure,
    in the order the source performs them.
-/
import Mathlib

namespace NlqSql

/-! ## Python string primitives (List Char based, kernel-reducible) -/

/-- Python `s.strip()` : drop whitespace from both ends. -/
def pyStrip (s : String) : String :=
  (((s.toList.dropWhile Char.isWhitespace).reverse.dropWhile Char.isWhitespace).reverse).asString

/-- Python `s.upper()` (ASCII). -/
def pyUpper (s : String) : String :=
  (s.toList.map Char.toUpper).asString

/-- Python `s.startswith(pre)`. -/
def pyStartsWith (s pre : String) : Bool :=
  pre.toList.isPrefixOf s.toList

/-- Python `s.endswith(suf)`. -/
def pyEndsWith (s suf : String) : Bool :=
  suf.toList.isSuffixOf s.toList

/-- Python `s[n:]` : drop the first `n` characters. -/
def pyDrop (s : String) (n : Nat) : String :=
  (s.toList.drop n).asString

/-- Python `s[:-n]` for `n ≤ len(s)` : drop the last `n` characters. -/
def pyDropRight (s : String) (n : Nat) : String :=
  (s.toList.take (s.toList.length - n)).asString

/-- Membership of a pattern in a character list (Python `pat in s`). -/
def containsList (pat : List Char) : List Char → Bool
  | [] => pat.isEmpty
  | c :: rest => pat.isPrefixOf (c :: rest) || containsList pat rest

/-- Python `pat in s`. -/
def pyIn (pat s : String) : Bool :=
  containsList pat.toList s.toList

/-- Characters up to (excluding) the first occurrence of `sep`;
    the whole list when `sep` does not occur.  This is Python
    `s.split(sep)[0]`. -/
def upToFirst (sep : List Char) : List Char → List Char
  | [] => []
  | c :: rest =>
    if sep.isPrefixOf (c :: rest) then []
    else c :: upToFirst sep rest

/-- Python `s.split(sep)[0]`. -/
def pySplitHead (s sep : String) : String :=
  (upToFirst sep.toList s.toList).asString

/-- Split a character list at every occurrence of a separator character
    (Python `s.split(sep)` for a one-character separator). -/
def splitChar (sep : Char) : List Char → List (List Char)
  | [] => [[]]
  | c :: rest =>
    let r := splitChar sep rest
    if c = sep then [] :: r else (c :: r.headD []) :: r.drop 1

/-- Python `s.split("\n")`. -/
def pySplitLines (s : String) : List String :=
  (splitChar (Char.ofNat 10) s.toList).map List.asString

/-- Left-to-right, non-overlapping replacement with fuel (the fuel is the
    length of the scanned list, which suffices since every step consumes at
    least one character). -/
def replaceGo (pat repl : List Char) : Nat → List Char → List Char
  | 0, l => l
  | _ + 1, [] => []
  | n + 1, c :: rest =>
    if ¬ pat.isEmpty ∧ pat.isPrefixOf (c :: rest) then
      repl ++ replaceGo pat repl n ((c :: rest).drop pat.length)
    else
      c :: replaceGo pat repl n rest

/-- Python `s.replace(pat, repl)` (all occurrences, left to right). -/
def pyReplace (s pat repl : String) : String :=
  (replaceGo pat.toList repl.toList s.toList.length s.toList).asString

/-- A single-quote character, built numerically. -/
def sq : String :=
  (Char.ofNat 39).toString

/-- Python `str(list_of_strings)`, e.g. a repr like a bracketed,
    comma-separated list of single-quoted entries. -/
def pyListRepr (l : List String) : String :=
  "[" ++ String.intercalate ", " (l.map (fun s => sq ++ s ++ sq)) ++ "]"

/-! ## Python values fetched from DuckDB -/

/-- A value in a row fetched from DuckDB: `None`, a string, or an integer
    (other scalar types play no role in the claims; their `str()` images can
    be represented by `vStr`). -/
inductive PyVal where
  | vNone
  | vStr (s : String)
  | vInt (n : Int)
deriving DecidableEq

/-- Python truthiness of a fetched value. -/
def PyVal.truthy : PyVal → Bool
  | .vNone => false
  | .vStr s => ¬ s.isEmpty
  | .vInt n => n ≠ 0

/-- Python `str(v)`. -/
def PyVal.pyStr : PyVal → String
  | .vNone => "None"
  | .vStr s => s
  | .vInt n => toString n

/-! ## query_executor.py : sanitize_sql and execute_query -/

/-- Embedding of `query_executor.sanitize_sql` (lines 59-67):
    strip the SQL, and if it starts (case-insensitively) with `SELECT WITH`,
    remove the leading 7 characters (`"SELECT "`). -/
def sanitize_sql (sql : String) : String :=
  let sql := pyStrip sql
  if pyStartsWith (pyUpper sql) "SELECT WITH" then pyDrop sql 7 else sql

/-- The response of the underlying DuckDB connection to one execution of a
    SQL string: either the column names (from `con.description`) together
    with the fetched rows, or the message of a raised exception; paired with
    the elapsed wall time in ms observed for the call (the `perf_counter`
    measurement is external real time, supplied by the oracle). -/
abbrev EngineResp (Row : Type) := Except String (List String × List Row) × Nat

/-- Embedding of the result dict built by `query_executor.execute_query`. -/
structure ExecResult (Row : Type) where
  success : Bool
  columns : Option (List String)
  rows : Option (List Row)
  row_count : Nat
  error : Option String
  execution_time_ms : Nat
deriving DecidableEq

/-- Embedding of `query_executor.execute_query` (lines 70-107).  `run` is the
    cached DuckDB connection obtained from `get_connection(tool_config)`,
    modelled as an oracle from the executed SQL text to the engine response.
    The function sanitizes the SQL, runs it, and translates either outcome
    into a structured result dict; an engine exception is caught and becomes
    a failure result, never a propagated exception (the function is total). -/
def execute_query {Row : Type} (run : String → EngineResp Row) (sql : String) :
    ExecResult Row :=
  let sql := sanitize_sql sql
  match run sql with
  | (.ok (columns, result), t) =>
    { success := true, columns := some columns, rows := some result,
      row_count := result.length, error := none, execution_time_ms := t }
  | (.error e, t) =>
    { success := false, columns := none, rows := none,
      row_count := 0, error := some e, execution_time_ms := t }

/-! ## Tool configuration (config.json sections read by the core) -/

/-- The `prompt_format` sub-dict of the `llm` config section.  Each field is
    `Option` because the source reads every key with `.get(key, default)`;
    `none` models an absent key. -/
structure PromptFormat where
  include_sample_rows : Option Bool
  sample_row_count : Option Nat
  hint_style : Option String
  response_prefix : Option String
deriving DecidableEq

/-- The `llm` config section.  Only `prompt_format` is read by the embedded
    code; provider/endpoint/model/api_key are consumed by the external LLM
    transport (`call_llm`), which is modelled as an oracle. -/
structure LLMConfig where
  prompt_format : Option PromptFormat
deriving DecidableEq

/-- The `database` config section.  `db_path` and `parquet_path` are read
    with `.get(key, "")`, so an absent key and an empty string coincide, as
    in the source; `table_name` is `Option` because the two call sites use
    different defaults (`""` in semantic_layer.py, `"data"` in
    llm_client.py).  `max_retries` is a required key; the claims restrict it
    to non-negative integers, hence `Nat`. -/
structure DatabaseConfig where
  db_path : String
  parquet_path : String
  table_name : Option String
  max_retries : Nat
deriving DecidableEq

/-- The `semantic_layer` config section (`auto_queries` and `static_context`
    are read with `.get(key, [])`, so an absent key coincides with `[]`). -/
structure SemanticLayerConfig where
  auto_queries : List String
  static_context : List String
deriving DecidableEq

/-- One tool configuration (e.g. `config["data_query"]`). -/
structure ToolConfig where
  database : DatabaseConfig
  llm : LLMConfig
  semantic_layer : SemanticLayerConfig
deriving DecidableEq

/-! ## semantic_layer.py : data-source resolution and context building -/

/-- A DuckDB connection as used by semantic_layer.py: executing a query text
    either raises (error message) or fetches a list of rows of values. -/
abbrev Conn := String → Except String (List (List PyVal))

/-- The external DuckDB capabilities used by `_get_data_source`:
    `expanduser` models `Path(p).expanduser()` (depends on the environment),
    `connect_ro` models `duckdb.connect(path, read_only=True)` and
    `connect_mem` models the in-memory `duckdb.connect()`. -/
structure DuckEnv where
  expanduser : String → String
  connect_ro : String → Conn
  connect_mem : Conn

/-- Embedding of `semantic_layer._get_data_source` (lines 16-59).  Returns
    the connection, the query target (what goes in FROM clauses) and the
    table name, or the message of the raised `ValueError`.  With a `db_path`
    and no configured table name, the table is auto-discovered via
    `SHOW TABLES`: exactly one table is adopted, zero tables raises an error
    naming the database file, several tables raise an error listing the
    discovered names.  An exception raised by `SHOW TABLES` itself
    propagates. -/
def get_data_source (env : DuckEnv) (config : ToolConfig) :
    Except String (Conn × String × String) :=
  let db_config := config.database
  let table_name := db_config.table_name.getD ""
  let db_path := db_config.db_path
  if ¬ db_path.isEmpty then
    let db_path := env.expanduser db_path
    let con := env.connect_ro db_path
    if table_name.isEmpty then
      match con "SHOW TABLES" with
      | .error e => .error e
      | .ok tables =>
        if tables.length = 1 then
          let table_name := ((tables.headD []).headD .vNone).pyStr
          .ok (con, table_name, table_name)
        else if tables.length = 0 then
          .error ("No tables found in database: " ++ db_path)
        else
          .error ("Multiple tables found, specify table_name in config: " ++
            pyListRepr (tables.map (fun t => (t.headD .vNone).pyStr)))
    else
      .ok (con, table_name, table_name)
  else
    let parquet_path := db_config.parquet_path
    if ¬ parquet_path.isEmpty then
      let parquet_path := env.expanduser parquet_path
      let con := env.connect_mem
      let table_name := if table_name.isEmpty then "data" else table_name
      .ok (con, sq ++ parquet_path ++ sq, table_name)
    else
      .error ("Config must specify either " ++ sq ++ "db_path" ++ sq ++
        " or " ++ sq ++ "parquet_path" ++ sq ++ " in database section")

/-- Column (name, type) pairs extracted from the rows fetched by the
    `DESCRIBE` query (`col[0]`, `col[1]`; DESCRIBE yields strings, so the
    values are taken through `str`). -/
def build_column_info (cols : List (List PyVal)) : List (String × String) :=
  cols.map (fun col => ((col.getD 0 .vNone).pyStr, (col.getD 1 .vNone).pyStr))

/-- The `CREATE TABLE` DDL text assembled by step 1 of
    `build_semantic_context` (lines 91-104). -/
def ddl_for (table_name : String) (columns : List (String × String)) : String :=
  let n := columns.length
  let body := columns.enum.map (fun ci =>
    let comma := if ci.1 < n - 1 then "," else ""
    "    " ++ ci.2.1 ++ " " ++ ci.2.2 ++ comma)
  String.intercalate "\n"
    (("CREATE TABLE " ++ table_name ++ " (") :: body ++
      [");", "-- Query this table as: SELECT ... FROM " ++ table_name ++ " WHERE ..."])

/-- One CSV cell of the sample-data block: `None` becomes an empty field,
    strings are double-quote-escaped and wrapped, other values stringified
    (lines 124-133). -/
def csv_cell : PyVal → String
  | .vNone => ""
  | .vStr s => "\"" ++ pyReplace s "\"" "\"\"" ++ "\""
  | v => v.pyStr

/-- The CSV text of the sample-data block: header line of column names,
    then one line per sampled row (lines 115-136). -/
def sample_csv (col_names : List String) (rows : List (List PyVal)) : String :=
  String.intercalate "\n"
    ((String.intercalate "," col_names) ::
      rows.map (fun row => String.intercalate "," (row.map csv_cell)))

/-- Step 3 of `build_semantic_context` (lines 140-158): walk the columns,
    and for each `VARCHAR` column whose distinct count is truthy and at most
    100, fetch up to 100 distinct non-null values.  The whole step sits in
    one `try`, so the first raised exception aborts the remaining columns and
    keeps the entries accumulated so far; a count result that cannot be
    compared to 100 (a non-integer) is such an exception. -/
def categorical_step (con : Conn) (query_target : String) :
    List (String × String) → List (String × List PyVal)
  | [] => []
  | (col_name, col_type) :: rest =>
    if col_type = "VARCHAR" then
      match con ("SELECT COUNT(DISTINCT " ++ col_name ++ ") FROM " ++ query_target) with
      | .error _ => []
      | .ok crows =>
        match crows with
        | [] => []
        | crow :: _ =>
          match crow.getD 0 .vNone with
          | .vInt distinct_count =>
            if distinct_count ≠ 0 ∧ distinct_count ≤ 100 then
              match con ("SELECT DISTINCT " ++ col_name ++ " FROM " ++ query_target ++
                  " WHERE " ++ col_name ++ " IS NOT NULL ORDER BY " ++ col_name ++
                  " LIMIT 100") with
              | .error _ => []
              | .ok vrows =>
                (col_name, vrows.map (fun v => v.getD 0 .vNone)) ::
                  categorical_step con query_target rest
            else categorical_step con query_target rest
          | .vNone => categorical_step con query_target rest
          | .vStr s =>
            if s.isEmpty then categorical_step con query_target rest else []
    else categorical_step con query_target rest

/-- Step 4 of `build_semantic_context` (lines 160-172): for each column whose
    uppercased type mentions DATE or TIMESTAMP, or whose name ends in
    `_date`, fetch min/max and attach stringified bounds when both are
    truthy.  As in step 3, one `try` wraps the whole loop, so an exception
    (a failed query, an empty fetch, a row that does not unpack into two
    values) aborts the remaining columns. -/
def date_range_step (con : Conn) (query_target : String) :
    List (String × String) → List (String × String × String)
  | [] => []
  | (col_name, col_type) :: rest =>
    let ct := pyUpper col_type
    if pyIn "DATE" ct || pyIn "TIMESTAMP" ct || pyEndsWith col_name "_date" then
      match con ("SELECT MIN(" ++ col_name ++ "), MAX(" ++ col_name ++ ") FROM " ++
          query_target) with
      | .error _ => []
      | .ok rrows =>
        match rrows with
        | [] => []
        | rrow :: _ =>
          if rrow.length = 2 then
            let min_val := rrow.getD 0 .vNone
            let max_val := rrow.getD 1 .vNone
            if min_val.truthy ∧ max_val.truthy then
              (col_name, min_val.pyStr, max_val.pyStr) ::
                date_range_step con query_target rest
            else date_range_step con query_target rest
          else []
    else date_range_step con query_target rest

instance {ε α : Type} [DecidableEq ε] [DecidableEq α] : DecidableEq (Except ε α)
  | .error e, .error f =>
    if h : e = f then .isTrue (by rw [h])
    else .isFalse (by intro hh; cases hh; exact h rfl)
  | .error _, .ok _ => .isFalse (by intro h; cases h)
  | .ok _, .error _ => .isFalse (by intro h; cases h)
  | .ok a, .ok b =>
    if h : a = b then .isTrue (by rw [h])
    else .isFalse (by intro hh; cases hh; exact h rfl)

/-- The outcome of one configured diagnostic query: the template together
    with either its fetched rows or the caught error text (lines 177-191). -/
structure AutoQueryResult where
  query : String
  result : Except String (List (List PyVal))
deriving DecidableEq

/-- Step 5 of `build_semantic_context`: substitute the placeholders in each
    template and execute it; failures are isolated per query. -/
def auto_queries_step (con : Conn) (query_target table_name : String)
    (templates : List String) : List AutoQueryResult :=
  templates.map (fun qt =>
    let q := pyReplace (pyReplace (pyReplace qt "\x7bquery_target\x7d" query_target)
      "\x7btable_name\x7d" table_name) "\x7bparquet_path\x7d" query_target
    { query := qt, result := con q })

/-- Embedding of the semantic-context dict assembled by
    `build_semantic_context`. -/
structure Context where
  schema_ddl : String
  sample_data : String
  column_info : List (String × String)
  categorical_values : List (String × List PyVal)
  date_range : List (String × String × String)
  hints : List String
  auto_query_results : List AutoQueryResult
deriving DecidableEq

/-- Embedding of `semantic_layer.build_semantic_context` (lines 62-197).
    The Python function mutates its `config` argument in place at line 75
    (`config["database"]["table_name"] = table_name`, commented in the source
    as an update "for downstream use"); state-passing style makes this
    explicit: the function returns the built context together with the
    configuration as it stands after the call.  A `ValueError` raised by
    `_get_data_source` propagates. -/
def build_semantic_context (env : DuckEnv) (config : ToolConfig) :
    Except String (Context × ToolConfig) :=
  let prompt_format := config.llm.prompt_format
  match get_data_source env config with
  | .error e => .error e
  | .ok (con, query_target, table_name) =>
    let config :=
      { config with database := { config.database with table_name := some table_name } }
    let step1 :=
      match con ("DESCRIBE SELECT * FROM " ++ query_target) with
      | .ok cols =>
        let ci := build_column_info cols
        (ddl_for table_name ci, ci)
      | .error e => ("-- Schema introspection failed: " ++ e, [])
    let schema_ddl := step1.1
    let column_info := step1.2
    let sample_data :=
      if (prompt_format.bind PromptFormat.include_sample_rows).getD true then
        let sample_count := (prompt_format.bind PromptFormat.sample_row_count).getD 8
        match con ("SELECT * FROM " ++ query_target ++ " ORDER BY RANDOM() LIMIT " ++
            toString sample_count) with
        | .ok rows => sample_csv (column_info.map Prod.fst) rows
        | .error e => "(sample query failed: " ++ e ++ ")"
      else ""
    let categorical_values := categorical_step con query_target column_info
    let date_range := date_range_step con query_target column_info
    let auto_query_results :=
      auto_queries_step con query_target table_name config.semantic_layer.auto_queries
    let hints := config.semantic_layer.static_context
    .ok ({ schema_ddl := schema_ddl, sample_data := sample_data,
           column_info := column_info, categorical_values := categorical_values,
           date_range := date_range, hints := hints,
           auto_query_results := auto_query_results }, config)

/-- The configuration component of a `build_semantic_context` result. -/
def result_config : Except String (Context × ToolConfig) → Option ToolConfig
  | .ok (_, cfg) => some cfg
  | .error _ => none

/-! ## llm_client.py : generate_sql and its extraction pipeline -/

/-- The response of the external LLM transport (`call_llm`): generated text
    plus the token counts reported by the provider. -/
structure LLMResp where
  text : String
  input_tokens : Nat
  output_tokens : Nat

/-- The dict returned by `generate_sql`. -/
structure GenResult where
  sql : String
  input_tokens : Nat
  output_tokens : Nat
deriving DecidableEq

/-- Markdown-fence cleaning of `generate_sql` (lines 123-133): when the text
    contains a triple backtick, drop every line whose stripped form starts
    with one (the `in_code_block` flag in the source is toggled but never
    read, so every non-marker line is kept) and re-strip the joined text. -/
def strip_code_fences (sql_text : String) : String :=
  if pyIn "```" sql_text then
    let lines := pySplitLines sql_text
    let clean_lines := lines.filter (fun line => ¬ pyStartsWith (pyStrip line) "```")
    pyStrip (String.intercalate "\n" clean_lines)
  else sql_text

/-- The response-prefix step of `generate_sql` (lines 135-140): if the text
    already starts with the configured response prefix, case-insensitively,
    keep it as it is; otherwise prepend the prefix and one space. -/
def ensure_prefixed (rp sql_text : String) : String :=
  if pyStartsWith (pyUpper sql_text) (pyUpper rp) then sql_text
  else rp ++ " " ++ sql_text

/-- Trailing-explanation truncation of `generate_sql` (lines 142-145):
    for each marker in order, when it occurs, keep only the text before its
    first occurrence. -/
def truncate_at_markers (sql : String) : String :=
  ["\n\nThis query", "\n\nExplanation", "\n\nNote:", "\n\n--"].foldl
    (fun sql marker => if pyIn marker sql then pySplitHead sql marker else sql) sql

/-- The `while sql.endswith(";;")` loop of `generate_sql` (lines 149-151),
    with fuel: each pass drops one character, so the initial length bounds
    the number of passes. -/
def collapse_semicolons_go : Nat → String → String
  | 0, sql => sql
  | n + 1, sql =>
    if pyEndsWith sql ";;" then collapse_semicolons_go n (pyDropRight sql 1) else sql

/-- Collapse a run of trailing doubled semicolons down to a single one. -/
def collapse_semicolons (sql : String) : String :=
  collapse_semicolons_go sql.toList.length sql

/-- Python truthiness of an optional string (`if previous_sql and
    previous_error:`): present and non-empty. -/
def optTruthy (o : Option String) : Bool :=
  ¬ (o.getD "").isEmpty

/-- Embedding of `llm_client.generate_sql` (lines 66-157).  `llm` is the
    external transport `call_llm`, an oracle from the assembled prompt to the
    provider response; its failures are outside this function (they would
    propagate, as the spec says).  The prompt is assembled exactly as in the
    source and handed to the oracle; the response text then goes through the
    extraction pipeline: strip, fence cleaning, response-prefix completion,
    trailing-explanation truncation, strip, trailing-semicolon collapse. -/
def generate_sql (llm : String → LLMResp) (question semantic_context : String)
    (config : ToolConfig) (previous_sql previous_error : Option String) : GenResult :=
  let prompt_format := config.llm.prompt_format
  let table_name := config.database.table_name.getD "data"
  let response_prefix := (prompt_format.bind PromptFormat.response_prefix).getD "SELECT"
  let base_prompt :=
    "Generate a DuckDB SQL query to answer the question based on the schema and data below.\n\n"
    ++ semantic_context ++
    "\n\n/* Query Rules */\n-- Return ONLY a valid DuckDB SQL SELECT statement\n-- The table is named: "
    ++ table_name ++
    "\n-- Use single quotes for strings; escape apostrophes by doubling: "
    ++ sq ++ "O" ++ sq ++ sq ++ "Brien" ++ sq ++
    "\n-- For date filtering with VARCHAR dates, cast to TIMESTAMP: CAST(date_col AS TIMESTAMP)\n\nQuestion: "
    ++ question
  let prompt :=
    if optTruthy previous_sql ∧ optTruthy previous_error then
      base_prompt ++ "\n\n/* PREVIOUS ATTEMPT FAILED - FIX THE ERROR */\nFailed SQL:\n"
      ++ previous_sql.getD "" ++ "\n\nError message:\n" ++ previous_error.getD "" ++
      "\n\nAnalyze the error and generate corrected SQL. Do not repeat the same mistake.\n\n"
      ++ response_prefix
    else
      base_prompt ++ "\n\n" ++ response_prefix
  let result := llm prompt
  let sql_text := pyStrip result.text
  let sql_text := strip_code_fences sql_text
  let sql := ensure_prefixed response_prefix sql_text
  let sql := truncate_at_markers sql
  let sql := pyStrip sql
  let sql := collapse_semicolons sql
  { sql := sql, input_tokens := result.input_tokens,
    output_tokens := result.output_tokens }

/-! ## query_executor.py : execute_with_retry -/

/-- One entry of the error trail (`errors.append({"sql": ..., "error": ...})`,
    line 189); the error field is the `error` slot of the execution result,
    hence optional. -/
structure ErrEntry where
  sql : String
  error : Option String
deriving DecidableEq

/-- One row persisted by `query_logger.log_attempt` (the arguments of the
    call at lines 160-173, in the log-table schema of query_logger.py). -/
structure AttemptRecord where
  request_id : String
  attempt_number : Nat
  client : String
  nlq : String
  sql : String
  success : Bool
  error_message : Option String
  row_count : Option Nat
  execution_time_ms : Nat
  input_tokens : Nat
  output_tokens : Nat
deriving DecidableEq

/-- The dict returned by `execute_with_retry` (the Loop Outcome). -/
structure LoopOutcome (Row : Type) where
  success : Bool
  columns : Option (List String)
  rows : Option (List Row)
  row_count : Nat
  sql : String
  retry_count : Nat
  errors : List ErrEntry
  input_tokens : Nat
  output_tokens : Nat
deriving DecidableEq

/-- The observable trace of one `execute_with_retry` run: the returned Loop
    Outcome, the Attempt Records passed to `log_attempt` in call order, and
    the number of calls made to the SQL-generation function. -/
structure RunTrace (Row : Type) where
  outcome : LoopOutcome Row
  log : List AttemptRecord
  gen_calls : Nat
deriving DecidableEq

/-- The SQL-generation function handed to the loop (`generate_sql_fn`).
    The loop calls it with the fixed question, context and tool config plus
    the previous sql/error pair; the leading `Nat` is the iteration index,
    modelling the call-by-call nondeterminism of the LLM transport. -/
abbrev GenFn := Nat → String → String → ToolConfig → Option String → Option String → GenResult

/-- The execution engine behind `execute_query` for the tool's cached
    connection; the leading `Nat` is the iteration index, modelling the
    statefulness of the database across calls. -/
abbrev EngFn (Row : Type) := Nat → String → EngineResp Row

/-- The Attempt Record persisted by the `log_attempt` call of one loop
    iteration (lines 160-173): the attempt number is the 1-based `attempt + 1`,
    the row count is only recorded for successful attempts, and the token
    counts are the per-attempt counts from the generation result. -/
def attempt_record {Row : Type} (request_id client_name question : String)
    (attempt : Nat) (llm_result : GenResult) (query_result : ExecResult Row) :
    AttemptRecord :=
  { request_id := request_id, attempt_number := attempt + 1,
    client := client_name, nlq := question, sql := llm_result.sql,
    success := query_result.success, error_message := query_result.error,
    row_count := if query_result.success then some query_result.row_count else none,
    execution_time_ms := query_result.execution_time_ms,
    input_tokens := llm_result.input_tokens,
    output_tokens := llm_result.output_tokens }

/-- The retry loop of `execute_with_retry` (lines 140-204), recursing on the
    remaining iteration count (`max_retries + 1` at entry, matching
    `for attempt in range(max_retries + 1)`).  Each iteration generates SQL,
    accumulates its token counts, executes it through `execute_query`, logs
    exactly one Attempt Record (1-based attempt number), and either returns
    the success outcome or appends the failed pair to the trail and carries
    it forward.  When the budget is exhausted, the failure outcome carries
    the last attempted SQL (the leaked loop variable `sql` of line 199) and
    `retry_count = max_retries` (line 200). -/
def retry_go {Row : Type} (gen : GenFn) (eng : EngFn Row)
    (question semantic_context : String) (tool_config : ToolConfig)
    (request_id client_name : String) (max_retries : Nat) :
    Nat → Nat → Option String → Option String → List ErrEntry → Nat → Nat →
    String → RunTrace Row
  | 0, _attempt, _prev_sql, _prev_error, errors, in_tok, out_tok, last_sql =>
    ⟨{ success := false, columns := none, rows := none, row_count := 0,
       sql := last_sql, retry_count := max_retries, errors := errors,
       input_tokens := in_tok, output_tokens := out_tok }, [], 0⟩
  | fuel + 1, attempt, prev_sql, prev_error, errors, in_tok, out_tok, _last_sql =>
    let llm_result := gen attempt question semantic_context tool_config prev_sql prev_error
    let sql := llm_result.sql
    let in_tok := in_tok + llm_result.input_tokens
    let out_tok := out_tok + llm_result.output_tokens
    let query_result := execute_query (eng attempt) sql
    let logged : AttemptRecord :=
      attempt_record request_id client_name question attempt llm_result query_result
    if query_result.success then
      ⟨{ success := true, columns := query_result.columns,
         rows := query_result.rows, row_count := query_result.row_count,
         sql := sql, retry_count := attempt, errors := errors,
         input_tokens := in_tok, output_tokens := out_tok }, [logged], 1⟩
    else
      let t := retry_go gen eng question semantic_context tool_config
        request_id client_name max_retries fuel (attempt + 1) (some sql)
        query_result.error (errors ++ [⟨sql, query_result.error⟩]) in_tok out_tok sql
      ⟨t.outcome, logged :: t.log, t.gen_calls + 1⟩

/-- Embedding of `query_executor.execute_with_retry` (lines 111-204).
    `request_id` models the `uuid.uuid4()` drawn at entry (an environment
    input); `log_path` is where `log_attempt` writes (the records the loop
    would append there are returned in the trace, in order). -/
def execute_with_retry {Row : Type} (gen : GenFn) (eng : EngFn Row)
    (question semantic_context : String) (tool_config : ToolConfig)
    (log_path : String) (request_id : String) (client_name : String) :
    RunTrace Row :=
  let _ := log_path
  retry_go gen eng question semantic_context tool_config request_id client_name
    tool_config.database.max_retries (tool_config.database.max_retries + 1)
    0 none none [] 0 0 ""

/-! ## server.py : _format_result -/

/-- The diagnostics block assembled by `server._format_result`. -/
structure Diagnostics where
  sql : String
  retry_count : Nat
  errors : List ErrEntry
  input_tokens : Nat
  output_tokens : Nat
deriving DecidableEq

/-- The MCP response shape produced by `server._format_result`. -/
structure FormattedResult (Row : Type) where
  success : Bool
  columns : Option (List String)
  rows : Option (List Row)
  row_count : Nat
  diagnostics : Diagnostics
deriving DecidableEq

/-- Embedding of `server._format_result` (lines 35-49).  The rows slot is
    `result["rows"][:100] if result["rows"] else None`: a missing or empty
    row list becomes `None`, otherwise the first 100 rows are kept. -/
def format_result {Row : Type} (result : LoopOutcome Row) : FormattedResult Row :=
  { success := result.success,
    columns := result.columns,
    rows :=
      match result.rows with
      | some rs => if rs.isEmpty then none else some (rs.take 100)
      | none => none,
    row_count := result.row_count,
    diagnostics :=
      ⟨result.sql, result.retry_count, result.errors,
        result.input_tokens, result.output_tokens⟩ }

/-! ## Concrete fixtures used to instantiate the theorems -/

/-- A generation oracle whose first attempt yields a bad statement and whose
    later attempts yield a good one. -/
def genW : GenFn := fun attempt _q _c _cfg _ps _pe =>
  if attempt = 0 then ⟨"BAD", 10, 5⟩ else ⟨"GOOD", 20, 7⟩

/-- An engine that runs `GOOD` successfully (columns `["c"]`, rows `[1, 2]`,
    3 ms) and raises `boom` on anything else (2 ms). -/
def engW : EngFn Nat := fun _attempt sql =>
  if sql = "GOOD" then (.ok (["c"], [1, 2]), 3) else (.error "boom", 2)

/-- A tool configuration with a retry budget of 2. -/
def cfgW : ToolConfig :=
  { database :=
      { db_path := "db.duckdb", parquet_path := "",
        table_name := some "t", max_retries := 2 },
    llm := { prompt_format := none },
    semantic_layer := { auto_queries := [], static_context := [] } }

/-- The trace of the retry loop on the fixtures above: the first attempt
    fails with `boom`, the second succeeds. -/
def runW : RunTrace Nat :=
  execute_with_retry genW engW "q" "ctx" cfgW "log.duckdb" "rid" "cli"

/-- A connection over a database containing exactly one table, `events`. -/
def connA : Conn := fun q =>
  if q = "SHOW TABLES" then .ok [[.vStr "events"]] else .ok []

/-- A DuckDB environment with a trivial home expansion over `connA`. -/
def envA : DuckEnv := ⟨fun s => s, fun _ => connA, connA⟩

/-- A tool configuration with a database file and no configured table name. -/
def cfgA : ToolConfig :=
  { database :=
      { db_path := "db.duckdb", parquet_path := "",
        table_name := none, max_retries := 1 },
    llm := { prompt_format := none },
    semantic_layer := { auto_queries := [], static_context := [] } }

/-- The configuration `cfgA` after the table name `events` has been written
    back into it. -/
def cfgA_updated : ToolConfig :=
  { cfgA with database := { cfgA.database with table_name := some "events" } }

/-- A connection over a database containing no tables at all. -/
def connB : Conn := fun _ => .ok []

/-- The environment over the empty database. -/
def envB : DuckEnv := ⟨fun s => s, fun _ => connB, connB⟩

/-- An engine fixture for `execute_query`: `SELECT 1` succeeds with one row,
    anything else raises a syntax error. -/
def runC5 : String → EngineResp Nat := fun s =>
  if s = "SELECT 1" then (.ok (["a"], [42]), 7) else (.error "syntax error", 4)

/-- A successful Loop Outcome carrying three result rows. -/
def out9 : LoopOutcome Nat :=
  ⟨true, some ["a"], some [5, 6, 7], 3, "SELECT x", 0, [], 9, 4⟩

/-- A successful Loop Outcome whose query returned zero rows. -/
def out10 : LoopOutcome Nat :=
  ⟨true, some ["c"], some [], 0, "SELECT 1", 0, [], 1, 1⟩

/-- A failed Loop Outcome, in the exact shape `execute_with_retry` returns
    on retry exhaustion (no columns, no rows, zero row count). -/
def out10f : LoopOutcome Nat :=
  ⟨false, none, none, 0, "SELECT 2", 1, [⟨"SELECT 2", some "boom"⟩], 1, 1⟩

/-! ## Invariants of the retry loop -/

section RetryLemmas

variable {Row : Type} (gen : GenFn) (eng : EngFn Row)
  (question semantic_context : String) (tool_config : ToolConfig)
  (request_id client_name : String) (max_retries : Nat)

/-- The loop makes exactly one `log_attempt` call per `generate_sql_fn`
    call: the generation-call counter of the trace equals the number of
    logged records. -/
lemma retry_go_gen_calls (fuel : Nat) :
    ∀ (attempt : Nat) (prev_sql prev_error : Option String)
      (errors : List ErrEntry) (in_tok out_tok : Nat) (last_sql : String),
    (retry_go gen eng question semantic_context tool_config request_id
      client_name max_retries fuel attempt prev_sql prev_error errors
      in_tok out_tok last_sql).gen_calls =
    (retry_go gen eng question semantic_context tool_config request_id
      client_name max_retries fuel attempt prev_sql prev_error errors
      in_tok out_tok last_sql).log.length := by
  induction fuel with
  | zero => intro attempt ps pe errors it ot ls; simp [retry_go]
  | succ n ih =>
    intro attempt ps pe errors it ot ls
    simp only [retry_go]
    split
    · simp
    · simp [ih]

/-- The loop executes at most `fuel` iterations. -/
lemma retry_go_log_le (fuel : Nat) :
    ∀ (attempt : Nat) (prev_sql prev_error : Option String)
      (errors : List ErrEntry) (in_tok out_tok : Nat) (last_sql : String),
    (retry_go gen eng question semantic_context tool_config request_id
      client_name max_retries fuel attempt prev_sql prev_error errors
      in_tok out_tok last_sql).log.length ≤ fuel := by
  induction fuel with
  | zero => intro attempt ps pe errors it ot ls; simp [retry_go]
  | succ n ih =>
    intro attempt ps pe errors it ot ls
    simp only [retry_go]
    split
    · simp
    · simp only [List.length_cons]
      exact Nat.succ_le_succ (ih _ _ _ _ _ _ _)

/-- Token accumulation: the outcome's totals equal the entry accumulators
    plus the sums of the per-attempt token counts over the logged records. -/
lemma retry_go_tokens (fuel : Nat) :
    ∀ (attempt : Nat) (prev_sql prev_error : Option String)
      (errors : List ErrEntry) (in_tok out_tok : Nat) (last_sql : String),
    (retry_go gen eng question semantic_context tool_config request_id
      client_name max_retries fuel attempt prev_sql prev_error errors
      in_tok out_tok last_sql).outcome.input_tokens =
      in_tok + ((retry_go gen eng question semantic_context tool_config
        request_id client_name max_retries fuel attempt prev_sql prev_error
        errors in_tok out_tok last_sql).log.map AttemptRecord.input_tokens).sum ∧
    (retry_go gen eng question semantic_context tool_config request_id
      client_name max_retries fuel attempt prev_sql prev_error errors
      in_tok out_tok last_sql).outcome.output_tokens =
      out_tok + ((retry_go gen eng question semantic_context tool_config
        request_id client_name max_retries fuel attempt prev_sql prev_error
        errors in_tok out_tok last_sql).log.map AttemptRecord.output_tokens).sum := by
  induction fuel with
  | zero => intro attempt ps pe errors it ot ls; simp [retry_go]
  | succ n ih =>
    intro attempt ps pe errors it ot ls
    simp only [retry_go]
    split
    · simp [attempt_record]
    · simp only [List.map_cons, List.sum_cons, ih, attempt_record]
      constructor <;> omega

/-- When the loop's outcome is a failure, every logged record is a failed
    attempt. -/
lemma retry_go_failure_all (fuel : Nat) :
    ∀ (attempt : Nat) (prev_sql prev_error : Option String)
      (errors : List ErrEntry) (in_tok out_tok : Nat) (last_sql : String),
    (retry_go gen eng question semantic_context tool_config request_id
      client_name max_retries fuel attempt prev_sql prev_error errors
      in_tok out_tok last_sql).outcome.success = false →
    ∀ r ∈ (retry_go gen eng question semantic_context tool_config request_id
      client_name max_retries fuel attempt prev_sql prev_error errors
      in_tok out_tok last_sql).log, r.success = false := by
  induction fuel with
  | zero => intro attempt ps pe errors it ot ls _; simp [retry_go]
  | succ n ih =>
    intro attempt ps pe errors it ot ls h
    simp only [retry_go] at h ⊢
    by_cases hs :
      (execute_query (eng attempt)
        (gen attempt question semantic_context tool_config ps pe).sql).success = true
    · rw [if_pos hs] at h
      simp at h
    · rw [if_neg hs] at h ⊢
      simp only [Bool.not_eq_true] at hs
      intro r hr
      rcases List.mem_cons.mp hr with hre | hrm
      · rw [hre]; simpa [attempt_record] using hs
      · exact ih _ _ _ _ _ _ _ h r hrm

/-- When the loop's outcome is a success, the logged records decompose into
    the failed iterations followed by the single succeeding one, and the
    outcome carries that iteration's SQL, its zero-based index as retry
    count, and the error trail accumulated from exactly the failed
    iterations. -/
lemma retry_go_success_decomp (fuel : Nat) :
    ∀ (attempt : Nat) (prev_sql prev_error : Option String)
      (errors : List ErrEntry) (in_tok out_tok : Nat) (last_sql : String),
    (retry_go gen eng question semantic_context tool_config request_id
      client_name max_retries fuel attempt prev_sql prev_error errors
      in_tok out_tok last_sql).outcome.success = true →
    ∃ failures final,
      (retry_go gen eng question semantic_context tool_config request_id
        client_name max_retries fuel attempt prev_sql prev_error errors
        in_tok out_tok last_sql).log = failures ++ [final] ∧
      (∀ r ∈ failures, r.success = false) ∧
      final.success = true ∧
      (retry_go gen eng question semantic_context tool_config request_id
        client_name max_retries fuel attempt prev_sql prev_error errors
        in_tok out_tok last_sql).outcome.sql = final.sql ∧
      (retry_go gen eng question semantic_context tool_config request_id
        client_name max_retries fuel attempt prev_sql prev_error errors
        in_tok out_tok last_sql).outcome.retry_count = attempt + failures.length ∧
      (retry_go gen eng question semantic_context tool_config request_id
        client_name max_retries fuel attempt prev_sql prev_error errors
        in_tok out_tok last_sql).outcome.errors =
        errors ++ failures.map (fun r => ErrEntry.mk r.sql r.error_message) := by
  induction fuel with
  | zero => intro attempt ps pe errors it ot ls h; simp [retry_go] at h
  | succ n ih =>
    intro attempt ps pe errors it ot ls h
    simp only [retry_go] at h ⊢
    by_cases hs :
      (execute_query (eng attempt)
        (gen attempt question semantic_context tool_config ps pe).sql).success = true
    · rw [if_pos hs]
      exact ⟨[], _, rfl, by simp, hs, rfl, by simp, by simp⟩
    · rw [if_neg hs] at h ⊢
      obtain ⟨f, l, h1, h2, h3, h4, h5, h6⟩ := ih _ _ _ _ _ _ _ h
      refine ⟨attempt_record request_id client_name question attempt
          (gen attempt question semantic_context tool_config ps pe)
          (execute_query (eng attempt)
            (gen attempt question semantic_context tool_config ps pe).sql) :: f,
        l, ?_, ?_, h3, h4, ?_, ?_⟩
      · simp [h1]
      · intro r hr
        rcases List.mem_cons.mp hr with hre | hrm
        · rw [hre]
          simpa [attempt_record] using hs
        · exact h2 r hrm
      · simp only [h5, List.length_cons]
        omega
      · simp [h6, attempt_record, List.append_assoc]

end RetryLemmas

/-! ## Claim theorems -/

/-- Claim C1, counterexample.  On a run whose first attempt fails and whose
    second attempt succeeds, the returned Loop Outcome has `success = true`
    but its error trail is the non-empty list of the failed attempt's
    (sql, error) pair — not the empty trail the claim states. -/
theorem C1_counterexample :
    runW.outcome.success = true ∧
    runW.outcome.sql = "GOOD" ∧
    runW.outcome.retry_count = 1 ∧
    runW.outcome.errors = [⟨"BAD", some "boom"⟩] ∧
    runW.outcome.errors ≠ [] := by decide

/-- Claim C1 (amended): for every run of `execute_with_retry` in which some
    attempt's execution succeeds, the returned Loop Outcome has
    `success = true`, the successful SQL, `retry_count` equal to the
    zero-based index of the succeeding iteration, and an error trail holding
    exactly the (sql, error) pairs of the failed iterations before the
    success, in order (so the trail is empty iff the first attempt
    succeeds). -/
theorem C1_success_outcome (Row : Type) (gen : GenFn) (eng : EngFn Row)
    (question semantic_context : String) (tool_config : ToolConfig)
    (log_path request_id client_name : String) (t : RunTrace Row)
    (ht : t = execute_with_retry gen eng question semantic_context tool_config
      log_path request_id client_name)
    (hs : t.outcome.success = true) :
    ∃ failures final,
      t.log = failures ++ [final] ∧
      (∀ r ∈ failures, r.success = false) ∧
      final.success = true ∧
      t.outcome.sql = final.sql ∧
      t.outcome.retry_count = failures.length ∧
      t.outcome.errors = failures.map (fun r => ErrEntry.mk r.sql r.error_message) := by
  subst ht
  simp only [execute_with_retry] at hs ⊢
  obtain ⟨f, l, h1, h2, h3, h4, h5, h6⟩ :=
    retry_go_success_decomp gen eng question semantic_context tool_config
      request_id client_name tool_config.database.max_retries
      (tool_config.database.max_retries + 1) 0 none none [] 0 0 "" hs
  exact ⟨f, l, h1, h2, h3, h4, by simpa using h5, by simpa using h6⟩

/-- Claim C1 witness: the amended statement evaluated on the concrete
    two-attempt run `runW`. -/
theorem C1_success_outcome_witness :
    ∃ failures final,
      runW.log = failures ++ [final] ∧
      (∀ r ∈ failures, r.success = false) ∧
      final.success = true ∧
      runW.outcome.sql = final.sql ∧
      runW.outcome.retry_count = failures.length ∧
      runW.outcome.errors = failures.map (fun r => ErrEntry.mk r.sql r.error_message) :=
  C1_success_outcome Nat genW engW "q" "ctx" cfgW "log.duckdb" "rid" "cli"
    runW rfl (by decide)

/-- Claim C2: with a non-negative retry budget `N = max_retries`, the loop
    makes at most `N + 1` generation calls, persists exactly one Attempt
    Record per generation call (the counter of generation calls equals the
    number of logged records), and stops at the first successful execution
    (every logged record before the last one is a failed attempt). -/
theorem C2_retry_budget (Row : Type) (gen : GenFn) (eng : EngFn Row)
    (question semantic_context : String) (tool_config : ToolConfig)
    (log_path request_id client_name : String) (t : RunTrace Row)
    (ht : t = execute_with_retry gen eng question semantic_context tool_config
      log_path request_id client_name) :
    t.gen_calls = t.log.length ∧
    t.gen_calls ≤ tool_config.database.max_retries + 1 ∧
    (∀ r ∈ t.log.dropLast, r.success = false) := by
  subst ht
  simp only [execute_with_retry]
  refine ⟨retry_go_gen_calls gen eng question semantic_context tool_config
      request_id client_name tool_config.database.max_retries
      (tool_config.database.max_retries + 1) 0 none none [] 0 0 "", ?_, ?_⟩
  · rw [retry_go_gen_calls gen eng question semantic_context tool_config
      request_id client_name tool_config.database.max_retries
      (tool_config.database.max_retries + 1) 0 none none [] 0 0 ""]
    exact retry_go_log_le gen eng question semantic_context tool_config
      request_id client_name tool_config.database.max_retries
      (tool_config.database.max_retries + 1) 0 none none [] 0 0 ""
  · cases hs : (retry_go gen eng question semantic_context tool_config
        request_id client_name tool_config.database.max_retries
        (tool_config.database.max_retries + 1) 0 none none [] 0 0 "").outcome.success with
    | true =>
      obtain ⟨f, l, h1, h2, _, _, _, _⟩ :=
        retry_go_success_decomp gen eng question semantic_context tool_config
          request_id client_name tool_config.database.max_retries
          (tool_config.database.max_retries + 1) 0 none none [] 0 0 "" hs
      rw [h1, List.dropLast_concat]
      exact h2
    | false =>
      intro r hr
      exact retry_go_failure_all gen eng question semantic_context tool_config
        request_id client_name tool_config.database.max_retries
        (tool_config.database.max_retries + 1) 0 none none [] 0 0 "" hs r
        (List.dropLast_subset _ hr)

/-- Claim C2 witness: the statement evaluated on the concrete two-attempt
    run `runW` (budget 2, two generation calls, two logged records, the
    non-final one failed). -/
theorem C2_retry_budget_witness :
    runW.gen_calls = runW.log.length ∧
    runW.gen_calls ≤ cfgW.database.max_retries + 1 ∧
    (∀ r ∈ runW.log.dropLast, r.success = false) :=
  C2_retry_budget Nat genW engW "q" "ctx" cfgW "log.duckdb" "rid" "cli" runW rfl

/-- Claim C3, counterexample.  `sanitize_sql` matches the prefix
    case-insensitively on the stripped input: the input `select with t` does
    not begin with `SELECT WITH`, yet it is not returned unchanged — its
    leading 7 characters are removed. -/
theorem C3_counterexample :
    pyStartsWith "select with t" "SELECT WITH" = false ∧
    sanitize_sql "select with t" = "with t" ∧
    sanitize_sql "select with t" ≠ "select with t" := by decide

/-- Claim C3 (amended): `sanitize_sql` first strips surrounding whitespace;
    when the stripped input, uppercased, begins with `SELECT WITH`, it
    returns the stripped input with exactly its leading 7 characters
    (`SELECT` and the following space) removed and the remainder untouched;
    otherwise it returns the stripped input unchanged. -/
theorem C3_sanitize_sql (s : String) :
    (pyStartsWith (pyUpper (pyStrip s)) "SELECT WITH" = true →
      sanitize_sql s = pyDrop (pyStrip s) 7) ∧
    (pyStartsWith (pyUpper (pyStrip s)) "SELECT WITH" = false →
      sanitize_sql s = pyStrip s) := by
  constructor <;> intro h <;> simp [sanitize_sql, h]

/-- Claim C3 witness: the amended statement evaluated on concrete inputs
    covering both branches. -/
theorem C3_sanitize_sql_witness :
    sanitize_sql "  SELECT WITH a" = "WITH a" ∧ sanitize_sql " x " = "x" :=
  ⟨((C3_sanitize_sql "  SELECT WITH a").1 (by decide)).trans (by decide),
   ((C3_sanitize_sql " x ").2 (by decide)).trans (by decide)⟩

/-- Claim C4, counterexample.  `build_semantic_context` is not free of
    effects on the configuration: on a configuration with no table name set,
    the call succeeds and hands back a configuration whose
    `database.table_name` has been overwritten with the auto-discovered
    table (`config["database"]["table_name"] = table_name`, line 75 of
    semantic_layer.py), so the tool configuration is not left unchanged. -/
theorem C4_counterexample :
    result_config (build_semantic_context envA cfgA) = some cfgA_updated ∧
    cfgA.database.table_name = none ∧
    cfgA_updated.database.table_name = some "events" ∧
    cfgA_updated ≠ cfgA := by decide

/-- Claim C4 (amended): `build_semantic_context` writes the resolved table
    name back into the configuration's `database.table_name` and leaves
    every other configuration field unchanged; the configuration is
    unchanged precisely when the table name was already configured as the
    resolved value. -/
theorem C4_config_frame (env : DuckEnv) (cfg cfg2 : ToolConfig)
    (h : result_config (build_semantic_context env cfg) = some cfg2) :
    ∃ con query_target tn,
      get_data_source env cfg = .ok (con, query_target, tn) ∧
      cfg2 = { cfg with database := { cfg.database with table_name := some tn } } ∧
      cfg2.llm = cfg.llm ∧
      cfg2.semantic_layer = cfg.semantic_layer ∧
      cfg2.database.db_path = cfg.database.db_path ∧
      cfg2.database.parquet_path = cfg.database.parquet_path ∧
      cfg2.database.max_retries = cfg.database.max_retries := by
  cases hgd : get_data_source env cfg with
  | error e => simp [build_semantic_context, hgd, result_config] at h
  | ok v =>
    obtain ⟨con, query_target, tn⟩ := v
    simp only [build_semantic_context, hgd, result_config, Option.some.injEq] at h
    subst h
    exact ⟨con, query_target, tn, rfl, rfl, rfl, rfl, rfl, rfl, rfl⟩

/-- Claim C4 witness: the amended statement evaluated on the concrete
    single-table environment, where the auto-discovered name `events` is
    written back. -/
theorem C4_config_frame_witness :
    ∃ con query_target tn,
      get_data_source envA cfgA = .ok (con, query_target, tn) ∧
      cfgA_updated =
        { cfgA with database := { cfgA.database with table_name := some tn } } ∧
      cfgA_updated.llm = cfgA.llm ∧
      cfgA_updated.semantic_layer = cfgA.semantic_layer ∧
      cfgA_updated.database.db_path = cfgA.database.db_path ∧
      cfgA_updated.database.parquet_path = cfgA.database.parquet_path ∧
      cfgA_updated.database.max_retries = cfgA.database.max_retries :=
  C4_config_frame envA cfgA cfgA_updated (by decide)

/-- Claim C5: `execute_query` is total over its engine oracle — it never
    propagates an engine exception.  When the engine raises on the sanitized
    SQL it returns the failure result carrying the exception's message as
    error text and the elapsed time observed up to the failure; when the
    engine succeeds it returns the ordered column names, all rows
    materialized, their count, and the elapsed wall time. -/
theorem C5_execute_query_result (Row : Type) (run : String → EngineResp Row)
    (sql : String) :
    (∀ e t, run (sanitize_sql sql) = (.error e, t) →
      execute_query run sql =
        { success := false, columns := none, rows := none, row_count := 0,
          error := some e, execution_time_ms := t }) ∧
    (∀ cols rws t, run (sanitize_sql sql) = (.ok (cols, rws), t) →
      execute_query run sql =
        { success := true, columns := some cols, rows := some rws,
          row_count := rws.length, error := none, execution_time_ms := t }) := by
  constructor
  · intro e t h
    simp [execute_query, h]
  · intro cols rws t h
    simp [execute_query, h]

/-- Claim C5 witness: both branches evaluated on the concrete engine
    `runC5`. -/
theorem C5_execute_query_result_witness :
    execute_query runC5 "BAD" =
      { success := false, columns := none, rows := none, row_count := 0,
        error := some "syntax error", execution_time_ms := 4 } ∧
    execute_query runC5 "SELECT 1" =
      { success := true, columns := some ["a"], rows := some [42],
        row_count := 1, error := none, execution_time_ms := 7 } :=
  ⟨(C5_execute_query_result Nat runC5 "BAD").1 "syntax error" 4 (by decide),
   (C5_execute_query_result Nat runC5 "SELECT 1").2 ["a"] [42] 7 (by decide)⟩

/-- Claim C6: the token totals in the returned Loop Outcome are the sums of
    the per-attempt token counts over exactly the iterations actually
    executed — the logged Attempt Records, which include the failed
    iterations. -/
theorem C6_token_totals (Row : Type) (gen : GenFn) (eng : EngFn Row)
    (question semantic_context : String) (tool_config : ToolConfig)
    (log_path request_id client_name : String) (t : RunTrace Row)
    (ht : t = execute_with_retry gen eng question semantic_context tool_config
      log_path request_id client_name) :
    t.outcome.input_tokens = (t.log.map AttemptRecord.input_tokens).sum ∧
    t.outcome.output_tokens = (t.log.map AttemptRecord.output_tokens).sum := by
  subst ht
  simp only [execute_with_retry]
  have h := retry_go_tokens gen eng question semantic_context tool_config
    request_id client_name tool_config.database.max_retries
    (tool_config.database.max_retries + 1) 0 none none [] 0 0 ""
  exact ⟨by simpa using h.1, by simpa using h.2⟩

/-- Claim C6 witness: the token sums evaluated on the concrete two-attempt
    run `runW` (10 + 20 input, 5 + 7 output, failed first attempt
    included). -/
theorem C6_token_totals_witness :
    runW.outcome.input_tokens = (runW.log.map AttemptRecord.input_tokens).sum ∧
    runW.outcome.output_tokens = (runW.log.map AttemptRecord.output_tokens).sum :=
  C6_token_totals Nat genW engW "q" "ctx" cfgW "log.duckdb" "rid" "cli" runW rfl

/-- Claim C7: with a database-file locator and no configured table name,
    data-source resolution succeeds iff exactly one table exists: zero
    tables raise a configuration error naming the (expanded) database file,
    one table is adopted as the table name, and two or more tables raise a
    configuration error listing all discovered table names. -/
theorem C7_auto_discovery (env : DuckEnv) (cfg : ToolConfig)
    (hdb : cfg.database.db_path.isEmpty = false)
    (htn : (cfg.database.table_name.getD "").isEmpty = true) :
    (env.connect_ro (env.expanduser cfg.database.db_path) "SHOW TABLES" = .ok [] →
      get_data_source env cfg =
        .error ("No tables found in database: " ++
          env.expanduser cfg.database.db_path)) ∧
    (∀ row, env.connect_ro (env.expanduser cfg.database.db_path) "SHOW TABLES" =
        .ok [row] →
      get_data_source env cfg =
        .ok (env.connect_ro (env.expanduser cfg.database.db_path),
          (row.headD PyVal.vNone).pyStr, (row.headD PyVal.vNone).pyStr)) ∧
    (∀ tables, env.connect_ro (env.expanduser cfg.database.db_path) "SHOW TABLES" =
        .ok tables →
      2 ≤ tables.length →
      get_data_source env cfg =
        .error ("Multiple tables found, specify table_name in config: " ++
          pyListRepr (tables.map (fun tb => (tb.headD PyVal.vNone).pyStr)))) := by
  refine ⟨?_, ?_, ?_⟩
  · intro h0
    simp [get_data_source, hdb, htn, h0]
  · intro row h1
    simp [get_data_source, hdb, htn, h1]
  · intro tables h2 hlen
    have hne1 : tables.length ≠ 1 := by omega
    have hne0 : tables.length ≠ 0 := by omega
    simp [get_data_source, hdb, htn, h2, hne1, hne0]

/-- Claim C7 witness: the three branches evaluated concretely — the empty
    database raises the error naming the file, and the single-table
    database resolves to its table `events`. -/
theorem C7_auto_discovery_witness :
    get_data_source envB cfgA =
      .error ("No tables found in database: " ++ "db.duckdb") ∧
    get_data_source envA cfgA = .ok (connA, "events", "events") := by
  constructor
  · exact (C7_auto_discovery envB cfgA (by decide) (by decide)).1 rfl
  · exact (C7_auto_discovery envA cfgA (by decide) (by decide)).2.1 [.vStr "events"] rfl

/-- Claim C8: in `generate_sql`'s extraction (the step `ensure_prefixed`
    applied to the fence-stripped, trimmed LLM text), a text that already
    starts with the configured response prefix — compared case-insensitively
    through `upper()` on both sides — is used as-is with no duplicate prefix
    prepended; otherwise exactly one copy of the prefix plus a single space
    is prepended. -/
theorem C8_response_prefix_rule ( rp text : String) :
    (pyStartsWith (pyUpper text) (pyUpper rp) = true →
      ensure_prefixed rp text = text) ∧
    (pyStartsWith (pyUpper text) (pyUpper rp) = false →
      ensure_prefixed rp text = rp ++ " " ++ text) := by
  constructor <;> intro h <;> simp [ensure_prefixed, h]

/-- Claim C8 witness: both branches evaluated concretely with the default
    prefix `SELECT` — a lowercase `select ...` is kept as-is, a `WITH`-led
    statement receives exactly one prefix and one space. -/
theorem C8_response_prefix_rule_witness :
    ensure_prefixed "SELECT" "select 1" = "select 1" ∧
    ensure_prefixed "SELECT" "WITH c AS (SELECT 1) SELECT * FROM c" =
      "SELECT" ++ " " ++ "WITH c AS (SELECT 1) SELECT * FROM c" :=
  ⟨(C8_response_prefix_rule "SELECT" "select 1").1 (by decide),
   (C8_response_prefix_rule "SELECT" "WITH c AS (SELECT 1) SELECT * FROM c").2
     (by decide)⟩

/-- Claim C9: the front-end reshaping `format_result` returns at most 100
    result rows while `row_count` stays the Loop Outcome's total row count,
    and the diagnostics block carries the final SQL, retry count, ordered
    error trail and token totals unchanged (success flag and columns are
    also passed through). -/
theorem C9_format_result (Row : Type) (result : LoopOutcome Row) :
    (∀ l, (format_result result).rows = some l → l.length ≤ 100) ∧
    (format_result result).row_count = result.row_count ∧
    (format_result result).success = result.success ∧
    (format_result result).columns = result.columns ∧
    (format_result result).diagnostics =
      ⟨result.sql, result.retry_count, result.errors,
        result.input_tokens, result.output_tokens⟩ := by
  refine ⟨?_, rfl, rfl, rfl, rfl⟩
  intro l hl
  simp only [format_result] at hl
  cases hrows : result.rows with
  | none => rw [hrows] at hl; simp at hl
  | some rs =>
    rw [hrows] at hl
    cases hE : rs.isEmpty with
    | true => simp [hE] at hl
    | false =>
      simp only [hE, Bool.false_eq_true, if_false, Option.some.injEq] at hl
      subst hl
      rw [List.length_take]
      exact min_le_left _ _

/-- Claim C9 witness: the statement evaluated on a concrete successful Loop
    Outcome carrying three rows. -/
theorem C9_format_result_witness :
    ([5, 6, 7] : List Nat).length ≤ 100 ∧
    (format_result out9).row_count = out9.row_count :=
  ⟨(C9_format_result Nat out9).1 [5, 6, 7] (by decide),
   (C9_format_result Nat out9).2.1⟩

/-- Claim C10, counterexample.  A zero-row success is indeed reshaped to
    `rows = none`, but `row_count = 0` and `success = true` are not the only
    distinguishing fields against a failed request: a failed request also
    reports `row_count = 0` (so `row_count` does not distinguish at all),
    while the `columns` field — non-null on success, null on failure — does
    distinguish the two. -/
theorem C10_counterexample :
    out10.success = true ∧
    out10.rows = some [] ∧
    (format_result out10).rows = none ∧
    (format_result out10f).rows = none ∧
    (format_result out10).row_count = (format_result out10f).row_count ∧
    (format_result out10).columns ≠ (format_result out10f).columns := by decide

/-- Claim C10 (amended): for every Loop Outcome whose row list is empty, the
    reshaping returns `rows = none` rather than an empty list — making a
    zero-row success indistinguishable in the rows field from a failed
    request; `success = true` and the non-null `columns` field are what
    distinguish it from a failure, while `row_count = 0` does not, since
    failed requests also report `row_count = 0`. -/
theorem C10_zero_row_success (Row : Type) (result : LoopOutcome Row)
    (h : result.rows = some ([] : List Row)) :
    (format_result result).rows = none ∧
    (format_result result).row_count = result.row_count ∧
    (format_result result).success = result.success ∧
    (format_result result).columns = result.columns := by
  refine ⟨?_, rfl, rfl, rfl⟩
  simp [format_result, h]

/-- Claim C10 witness: the amended statement evaluated on the concrete
    zero-row success. -/
theorem C10_zero_row_success_witness :
    (format_result out10).rows = none ∧
    (format_result out10).row_count = out10.row_count ∧
    (format_result out10).success = out10.success ∧
    (format_result out10).columns = out10.columns :=
  C10_zero_row_success Nat out10 (by decide)

end NlqSql
